import Mathlib

/-! Shallow embedding of the AI-Text-Summarizer Flask application (`src/app.py`).

The application is a thin HTTP wrapper around an external summarization
model, with a Redis-backed response cache and a Redis-backed fixed-window
rate limiter.  External effects are made explicit:

* Redis is modelled as explicit state. A rate-limit counter is an
  `Option (Nat × Nat)` (value, absolute expiry time in seconds); the
  summary cache is an association list from keys to
  (`SummaryResult`, absolute expiry time).  An entry whose expiry time has
  passed behaves as an absent key, matching Redis TTL semantics.
* Redis being unreachable at startup (`REDIS_AVAILABLE = False`) and a
  Redis call raising at request time (connection error / timeout) are
  explicit boolean flags.
* `hashlib.md5(...).hexdigest()` is an external library call, modelled as
  an arbitrary function parameter `md5h : String → String` applied to the
  exact content string the code builds.
* The Hugging Face `pipeline` model invocation is an external call,
  modelled as an `Except String (String × ℚ)` input: either an exception
  message or the pair (summary text, elapsed inference seconds).
* `json.dumps` / `json.loads` round-trip the response dictionary, so cache
  values are stored as `SummaryResult` directly.
* Python floats are modelled over `ℚ`; `round(x, n)` is modelled as
  round-half-up on rationals (Python float rounding is ties-to-even, and no
  value in this development sits on a tie).
* Python `str.split()` with no argument splits on whitespace runs and
  drops empty pieces.
-/

namespace App

/-- Helper for `pySplit`: walk the character list, accumulating the current
word (reversed) and emitting maximal non-whitespace runs. -/
def pySplitAux : List Char → List Char → List String
  | [], acc => if acc.isEmpty then [] else [String.mk acc.reverse]
  | c :: cs, acc =>
    if c.isWhitespace then
      if acc.isEmpty then pySplitAux cs []
      else String.mk acc.reverse :: pySplitAux cs []
    else pySplitAux cs (c :: acc)

/-- Python `str.split()` with no arguments: split on whitespace runs,
discarding empty fragments. -/
def pySplit (s : String) : List String :=
  pySplitAux s.data []

/-- Python `str.strip()`: remove leading and trailing whitespace. -/
def pyStrip (s : String) : String :=
  String.mk (((s.data.dropWhile Char.isWhitespace).reverse.dropWhile
    Char.isWhitespace).reverse)

/-- Python `str.lower()` (the application only lowercases the ASCII length
option). -/
def pyLower (s : String) : String :=
  String.mk (s.data.map Char.toLower)

/-- Python slicing `s[:n]`: the first `n` characters (code points). -/
def pyTake (s : String) (n : Nat) : String :=
  String.mk (s.data.take n)

/-- Word count `len(text.split())`, as used by `validate_input` and by the
`original_length` / `summary_length` response fields. -/
def wordCount (s : String) : Nat :=
  (pySplit s).length

/-- Python `round(x, n)` over the rationals (round half up; see module
doc comment). -/
def pyRound (x : ℚ) (n : Nat) : ℚ :=
  ((Int.floor (x * (10 : ℚ) ^ n + 1 / 2) : ℤ) : ℚ) / (10 : ℚ) ^ n

/-- The response dictionary built by `generate_summary` (and cached as JSON). -/
structure SummaryResult where
  summary : String
  original_length : Nat
  summary_length : Nat
  compression_ratio : ℚ
  inference_time : ℚ
  cached : Bool
  timestamp : String
deriving DecidableEq

/-! ## Rate limiting (`rate_limit` decorator, app.py lines 64-92) -/

/-- Outcome of the `rate_limit` decorator: either the wrapped handler runs,
or a 429 rate-limit response is returned without running it. -/
inductive RateDecision where
  | proceed
  | reject429
deriving DecidableEq

/-- Redis `GET` on the counter key at absolute time `now`: an entry whose
expiry has passed is absent. -/
def redisGetCounter (st : Option (Nat × Nat)) (now : Nat) : Option Nat :=
  match st with
  | none => none
  | some (c, e) => if now < e then some c else none

/-- The pipelined `INCR key; EXPIRE key window` batch at time `now`:
`INCR` creates an absent (or expired) key with value 1, otherwise adds one;
`EXPIRE` then resets the expiry to `now + window` in both cases. -/
def incrExpire (st : Option (Nat × Nat)) (now window : Nat) : Option (Nat × Nat) :=
  match redisGetCounter st now with
  | some c => some (c + 1, now + window)
  | none => some (1, now + window)

/-- Body of the `rate_limit` decorator when Redis is available and raises no
exception: read the counter; if present and `≥ max_requests` return 429,
otherwise increment and reset the expiry, then run the handler. -/
def rate_limit_step (max_requests window : Nat) (st : Option (Nat × Nat))
    (now : Nat) : RateDecision × Option (Nat × Nat) :=
  match redisGetCounter st now with
  | some c =>
    if max_requests ≤ c then (RateDecision.reject429, st)
    else (RateDecision.proceed, incrExpire st now window)
  | none => (RateDecision.proceed, incrExpire st now window)

/-- The full `rate_limit` decorator: if `REDIS_AVAILABLE` is false the
handler runs unconditionally; if the Redis calls raise, the exception is
logged and the handler runs; otherwise `rate_limit_step`. -/
def rate_limit (redisAvailable redisFails : Bool) (max_requests window : Nat)
    (st : Option (Nat × Nat)) (now : Nat) : RateDecision × Option (Nat × Nat) :=
  if !redisAvailable then (RateDecision.proceed, st)
  else if redisFails then (RateDecision.proceed, st)
  else rate_limit_step max_requests window st now

/-- A sequence of requests from one client at the given absolute times,
with Redis available and healthy, threading the counter state. -/
def rate_limit_run (max_requests window : Nat) (times : List Nat)
    (st : Option (Nat × Nat)) : List RateDecision × Option (Nat × Nat) :=
  match times with
  | [] => ([], st)
  | t :: ts =>
    let r := rate_limit true false max_requests window st t
    let rest := rate_limit_run max_requests window ts r.2
    (r.1 :: rest.1, rest.2)

/-! ## Caching (`get_cache_key`, `get_cached_summary`, `cache_summary`,
app.py lines 96-133) -/

/-- Key derivation `get_cache_key`: the cache key is the namespace tag `summary:` followed
by the MD5 hex digest of the first 1000 characters of the text, a `:`
separator, and the length option. -/
def get_cache_key (md5h : String → String) (text length : String) : String :=
  "summary:" ++ md5h (pyTake text 1000 ++ ":" ++ length)

/-- The summary cache: association list from keys to (value, absolute
expiry time in seconds). -/
def CacheState : Type := List (String × SummaryResult × Nat)

/-- Redis `GET` on the summary cache at time `now` (expired entries are
absent). A pure read: the state is not modified. -/
def cacheLookup (st : CacheState) (key : String) (now : Nat) :
    Option SummaryResult :=
  match st.find? (fun kv => kv.1 == key) with
  | some (_, v, e) => if now < e then some v else none
  | none => none

/-- Redis `SETEX key ttl value` at time `now`: replace any existing entry,
expiring `ttl` seconds from the write. -/
def cacheStore (st : CacheState) (key : String) (v : SummaryResult)
    (ttl now : Nat) : CacheState :=
  (key, v, now + ttl) :: st.filter (fun kv => !(kv.1 == key))

/-- Raw Redis `GET` call for the cache: `cacheFails` models a connection
error or timeout raised by the client library. -/
def redisCacheGet (cacheFails : Bool) (st : CacheState) (key : String)
    (now : Nat) : Except String (Option SummaryResult) :=
  if cacheFails then Except.error "connection error"
  else Except.ok (cacheLookup st key now)

/-- Raw Redis `SETEX` call for the cache, same failure model. -/
def redisSetex (cacheFails : Bool) (st : CacheState) (key : String)
    (ttl : Nat) (v : SummaryResult) (now : Nat) : Except String CacheState :=
  if cacheFails then Except.error "connection error"
  else Except.ok (cacheStore st key v ttl now)

/-- Lookup `get_cached_summary`: `None` when Redis is unavailable; any exception
from the `GET` is caught locally and treated as a miss. -/
def get_cached_summary (md5h : String → String)
    (redisAvailable cacheFails : Bool) (st : CacheState) (now : Nat)
    (text length : String) : Option SummaryResult :=
  if !redisAvailable then none
  else
    match redisCacheGet cacheFails st (get_cache_key md5h text length) now with
    | Except.error _ => none
    | Except.ok v => v

/-- Store `cache_summary`: store under the cache key with a 24-hour (86400 s)
TTL; a no-op when Redis is unavailable; any exception from the `SETEX` is
caught locally and the store is skipped. -/
def cache_summary (md5h : String → String)
    (redisAvailable cacheFails : Bool) (st : CacheState) (now : Nat)
    (text length : String) (summary_data : SummaryResult) : CacheState :=
  if !redisAvailable then st
  else
    match redisSetex cacheFails st (get_cache_key md5h text length) 86400
        summary_data now with
    | Except.error _ => st
    | Except.ok st2 => st2

/-! ## Validation (`validate_input`, app.py lines 137-153) -/

/-- Validation `validate_input`: the four checks in source order, each appending its
message when violated. -/
def validate_input (text length : String) : List String :=
  (if text.data.isEmpty || (pyStrip text).data.isEmpty then ["Text cannot be empty"] else []) ++
  (if 10000 < text.data.length then ["Text too long (max 10,000 characters)"] else []) ++
  (if wordCount text < 30 then ["Text too short (minimum 30 words)"] else []) ++
  (if !(["short", "medium", "long"].contains length) then ["Invalid length option"] else [])

/-! ## Summarization (`generate_summary`, app.py lines 157-208) -/

/-- The `length_config` dictionary lookup with `dict.get` defaulting to the
`medium` entry: the (max_length, min_length) generation parameters. -/
def length_config (length : String) : Nat × Nat :=
  if length = "short" then (50, 20)
  else if length = "medium" then (130, 30)
  else if length = "long" then (250, 50)
  else (130, 30)

/-- Per-request environment: the external-world inputs of one request. -/
structure Env where
  md5h : String → String
  redisAvailable : Bool
  cacheFails : Bool
  modelResult : Except String (String × ℚ)
  now : Nat
  timestamp : String

/-- Core `generate_summary`: cache lookup first; on a hit return the cached
dictionary with `cached` forced to `True` (state untouched); on a miss run
the model — an exception there is logged and re-raised — then build the
response (with `cached = False`), best-effort store it, and return it. -/
def generate_summary (env : Env) (st : CacheState) (text length : String) :
    Except String SummaryResult × CacheState :=
  match get_cached_summary env.md5h env.redisAvailable env.cacheFails st
      env.now text length with
  | some hit => (Except.ok { hit with cached := true }, st)
  | none =>
    match env.modelResult with
    | Except.error e => (Except.error e, st)
    | Except.ok (summary_text, elapsed) =>
      let response : SummaryResult :=
        { summary := summary_text
          original_length := wordCount text
          summary_length := wordCount summary_text
          compression_ratio :=
            pyRound ((summary_text.data.length : ℚ) / (text.data.length : ℚ) * 100) 1
          inference_time := pyRound elapsed 2
          cached := false
          timestamp := env.timestamp }
      (Except.ok response,
        cache_summary env.md5h env.redisAvailable env.cacheFails st env.now
          text length response)

/-! ## HTTP endpoints (`summarize`, `health_check`, app.py lines 217-269) -/

/-- Flattened JSON response of the `/api/summarize` endpoint. Fields absent
from a given response body are `none`. -/
structure Response where
  status : Nat
  success : Option Bool
  error : Option String
  message : Option String
  data : Option SummaryResult
deriving DecidableEq

/-- The parsed JSON request body; `none` for an absent key. A missing or
falsy body is modelled as `none` at the call site. -/
structure RequestBody where
  text : Option String
  length : Option String
deriving DecidableEq

/-- The `summarize` handler body (inside the `rate_limit` decorator):
parse, normalize, validate (report only the first error), generate, and
convert any exception escaping `generate_summary` into a 500 response. The
handler is a total function: no exception escapes it. -/
def summarize_handler (env : Env) (st : CacheState)
    (body : Option RequestBody) : Response × CacheState :=
  match body with
  | none =>
    ({ status := 400, success := none, error := some "No JSON data provided",
       message := none, data := none }, st)
  | some data =>
    let text := pyStrip (data.text.getD "")
    let length := pyLower (data.length.getD "medium")
    match validate_input text length with
    | e :: _ =>
      ({ status := 400, success := none, error := some e,
         message := none, data := none }, st)
    | [] =>
      match generate_summary env st text length with
      | (Except.ok result, st2) =>
        ({ status := 200, success := some true, error := none,
           message := none, data := some result }, st2)
      | (Except.error e, st2) =>
        ({ status := 500, success := some false,
           error := some "Internal server error",
           message := some e, data := none }, st2)

/-- The full `/api/summarize` endpoint: the `rate_limit(10, 60)` decorator
wrapping `summarize_handler`, threading both Redis states. -/
def summarize_endpoint (env : Env) (redisFails : Bool)
    (rateSt : Option (Nat × Nat)) (st : CacheState)
    (body : Option RequestBody) :
    Response × Option (Nat × Nat) × CacheState :=
  match rate_limit env.redisAvailable redisFails 10 60 rateSt env.now with
  | (RateDecision.reject429, rateSt2) =>
    ({ status := 429, success := none,
       error := some "Rate limit exceeded",
       message := some "Max 10 requests per 60s",
       data := none }, rateSt2, st)
  | (RateDecision.proceed, rateSt2) =>
    let r := summarize_handler env st body
    (r.1, rateSt2, r.2)

/-- Lazy loader `ModelManager.get_model`: lazily construct the model on first use
(`pipelineResult` is the external `pipeline(...)` call, which may raise)
and return the stored instance. Returns (returned `self._model`, new
`self._model`). -/
def ModelManager_get_model {Model : Type}
    (pipelineResult : Except String Model) (st : Option Model) :
    Except String (Option Model × Option Model) :=
  match st with
  | some m => Except.ok (some m, some m)
  | none =>
    match pipelineResult with
    | Except.error e => Except.error e
    | Except.ok m => Except.ok (some m, some m)

/-- Flattened JSON response of the `/api/health` endpoint. -/
structure HealthResponse where
  http_status : Nat
  status : String
  model_loaded : Option Bool
  redis : Option String
  timestamp : Option String
  error : Option String
deriving DecidableEq

/-- The `health_check` handler: call `get_model()` (loading the model if
necessary), report `model_loaded = model is not None`; any exception gives
a 503 response. -/
def health_check {Model : Type} (pipelineResult : Except String Model)
    (redisAvailable : Bool) (ts : String) (st : Option Model) :
    HealthResponse × Option Model :=
  match ModelManager_get_model pipelineResult st with
  | Except.error e =>
    ({ http_status := 503, status := "unhealthy", model_loaded := none,
       redis := none, timestamp := none, error := some e }, st)
  | Except.ok (m, st2) =>
    ({ http_status := 200, status := "healthy",
       model_loaded := some m.isSome,
       redis := some (if redisAvailable then "connected" else "disconnected"),
       timestamp := some ts, error := none }, st2)


/-! ## Concrete sample values for witness instances -/

/-- A concrete stored response value used in witness instances. -/
def sampleResult : SummaryResult :=
  { summary := "s", original_length := 31, summary_length := 5,
    compression_ratio := 15, inference_time := 1, cached := false,
    timestamp := "2026-01-01T00:00:00" }

/-- A concrete valid request body (30 words) used in witness instances. -/
def sampleBody : RequestBody :=
  { text := some "w w w w w w w w w w w w w w w w w w w w w w w w w w w w w w",
    length := none }

/-- A 29-word text. -/
def w29 : String := "w w w w w w w w w w w w w w w w w w w w w w w w w w w w w"

/-- A 30-word text. -/
def w30 : String := w29 ++ " w"

/-- A 10,001-character text. -/
def a10001 : String := String.mk (List.replicate 10001 'a')

/-- A 10,000-character text. -/
def a10000 : String := String.mk (List.replicate 10000 'a')

/-! ## Shared helper lemmas -/

/-- A cache read or write that raises, or runs with Redis unavailable,
yields a miss. -/
theorem get_cached_summary_eq_none (md5h : String → String)
    (avail cf : Bool) (st : CacheState) (now : Nat) (text length : String)
    (h : cf = true ∨ avail = false) :
    get_cached_summary md5h avail cf st now text length = none := by
  rcases h with h | h
  · subst h
    cases avail <;> simp [get_cached_summary, redisCacheGet]
  · subst h
    simp [get_cached_summary]

/-- A cache store that raises, or runs with Redis unavailable, is a no-op. -/
theorem cache_summary_eq_self (md5h : String → String)
    (avail cf : Bool) (st : CacheState) (now : Nat) (text length : String)
    (data : SummaryResult) (h : cf = true ∨ avail = false) :
    cache_summary md5h avail cf st now text length data = st := by
  rcases h with h | h
  · subst h
    cases avail <;> simp [cache_summary, redisSetex]
  · subst h
    simp [cache_summary]

/-- Looking up the key just stored: a hit before the TTL expires, a miss
afterwards. -/
theorem cacheLookup_cacheStore (st : CacheState) (key : String)
    (v : SummaryResult) (ttl now1 now2 : Nat) :
    cacheLookup (cacheStore st key v ttl now1) key now2 =
      if now2 < now1 + ttl then some v else none := by
  simp [cacheLookup, cacheStore, List.find?]

/-- On a miss with a successful model call, `generate_summary` reports the
character-length compression ratio. -/
theorem generate_summary_ratio (env : Env) (st : CacheState)
    (text length s : String) (tm : ℚ)
    (hmiss : get_cached_summary env.md5h env.redisAvailable env.cacheFails st
      env.now text length = none)
    (hm : env.modelResult = Except.ok (s, tm)) :
    Except.map SummaryResult.compression_ratio (generate_summary env st text length).1
      = Except.ok (pyRound ((s.data.length : ℚ) / (text.data.length : ℚ) * 100) 1) := by
  simp [generate_summary, hmiss, hm, Except.map]

/-! ## Claims -/

/-- C1: with Redis available and healthy, a request whose stored counter is
absent (no prior request in the window) proceeds, one whose stored counter
is below 10 proceeds, and one whose stored (unexpired) counter is at least
10 is rejected — at the endpoint, with an HTTP 429 response; with the
counter store unavailable every request proceeds (fail-open); and from a
fresh counter, 11 requests inside one 60 s window give 10 allowed requests
followed by a rejection. -/
theorem claim_C1_rate_limiter :
    (∀ st now, redisGetCounter st now = none →
      (rate_limit true false 10 60 st now).1 = RateDecision.proceed) ∧
    (∀ st now c, redisGetCounter st now = some c → c < 10 →
      (rate_limit true false 10 60 st now).1 = RateDecision.proceed) ∧
    (∀ st now c, redisGetCounter st now = some c → 10 ≤ c →
      (rate_limit true false 10 60 st now).1 = RateDecision.reject429) ∧
    (∀ env redisFails rateSt cacheSt body c, env.redisAvailable = true →
      redisFails = false → redisGetCounter rateSt env.now = some c → 10 ≤ c →
      (summarize_endpoint env redisFails rateSt cacheSt body).1.status = 429) ∧
    (∀ redisFails st now,
      (rate_limit false redisFails 10 60 st now).1 = RateDecision.proceed) ∧
    (rate_limit_run 10 60 (List.replicate 10 0 ++ [0]) none).1
      = List.replicate 10 RateDecision.proceed ++ [RateDecision.reject429] := by
  refine ⟨?_, ?_, ?_, ?_, ?_, by decide⟩
  · intro st now h
    simp [rate_limit, rate_limit_step, h]
  · intro st now c h hlt
    simp only [rate_limit, rate_limit_step, h, Bool.not_true, Bool.false_eq_true,
      if_false]
    rw [if_neg (by omega)]
  · intro st now c h hge
    simp only [rate_limit, rate_limit_step, h, Bool.not_true, Bool.false_eq_true,
      if_false]
    rw [if_pos hge]
  · intro env redisFails rateSt cacheSt body c ha hf h hge
    simp only [summarize_endpoint, rate_limit, rate_limit_step, ha, hf, h,
      Bool.not_true, Bool.false_eq_true, if_false]
    rw [if_pos hge]
  · intro redisFails st now
    simp [rate_limit]

/-- C1 witness: concrete instances of each clause — an absent counter, a
counter of 3, a saturated counter of 10 (per-decorator and at the
endpoint), and the store-unavailable case. -/
theorem claim_C1_rate_limiter_witness :
    (rate_limit true false 10 60 none 0).1 = RateDecision.proceed ∧
    (rate_limit true false 10 60 (some (3, 50)) 10).1 = RateDecision.proceed ∧
    (rate_limit true false 10 60 (some (10, 50)) 10).1 = RateDecision.reject429 ∧
    (summarize_endpoint
      { md5h := id, redisAvailable := true, cacheFails := false,
        modelResult := Except.error "e", now := 10, timestamp := "ts" }
      false (some (10, 50)) [] none).1.status = 429 ∧
    (rate_limit false false 10 60 (some (10, 50)) 10).1 = RateDecision.proceed :=
  ⟨claim_C1_rate_limiter.1 none 0 (by decide),
   claim_C1_rate_limiter.2.1 _ _ 3 (by decide) (by decide),
   claim_C1_rate_limiter.2.2.1 _ _ 10 (by decide) (by decide),
   claim_C1_rate_limiter.2.2.2.1 _ false _ [] none 10 rfl rfl (by decide) (by decide),
   claim_C1_rate_limiter.2.2.2.2.1 false _ 10⟩

/-- C4 counterexample: with a stored counter of 10 still inside its window,
the request is rejected and the stored counter state is left exactly as it
was — in particular it is not the incremented state, so the counter is not
incremented on every request attempt. -/
theorem claim_C4_counterexample :
    (rate_limit true false 10 60 (some (10, 100)) 0).1 = RateDecision.reject429 ∧
    (rate_limit true false 10 60 (some (10, 100)) 0).2 = some (10, 100) ∧
    (rate_limit true false 10 60 (some (10, 100)) 0).2
      ≠ incrExpire (some (10, 100)) 0 60 := by decide

/-- C4 amended: the counter is incremented exactly on the allowed attempts:
an allowed request applies the INCR/EXPIRE batch, a rejected request leaves
the stored state unchanged; the increment happens before the summarization
runs, so the endpoint's resulting rate state is independent of the model
outcome. -/
theorem claim_C4_amended :
    (∀ st now, (rate_limit true false 10 60 st now).1 = RateDecision.proceed →
      (rate_limit true false 10 60 st now).2 = incrExpire st now 60) ∧
    (∀ st now, (rate_limit true false 10 60 st now).1 = RateDecision.reject429 →
      (rate_limit true false 10 60 st now).2 = st) ∧
    (∀ md5h avail cf mr1 mr2 now ts redisFails rateSt cacheSt body,
      (summarize_endpoint
        { md5h := md5h, redisAvailable := avail, cacheFails := cf,
          modelResult := mr1, now := now, timestamp := ts }
        redisFails rateSt cacheSt body).2.1 =
      (summarize_endpoint
        { md5h := md5h, redisAvailable := avail, cacheFails := cf,
          modelResult := mr2, now := now, timestamp := ts }
        redisFails rateSt cacheSt body).2.1) := by
  refine ⟨?_, ?_, ?_⟩
  · intro st now h
    simp only [rate_limit, rate_limit_step, Bool.not_true, Bool.false_eq_true,
      if_false] at h ⊢
    cases hg : redisGetCounter st now with
    | none => simp [hg]
    | some c =>
      simp only [hg] at h ⊢
      by_cases hc : 10 ≤ c
      · rw [if_pos hc] at h
        cases h
      · rw [if_neg hc]
  · intro st now h
    simp only [rate_limit, rate_limit_step, Bool.not_true, Bool.false_eq_true,
      if_false] at h ⊢
    cases hg : redisGetCounter st now with
    | none => simp [hg] at h
    | some c =>
      simp only [hg] at h ⊢
      by_cases hc : 10 ≤ c
      · rw [if_pos hc]
      · rw [if_neg hc] at h
        cases h
  · intro md5h avail cf mr1 mr2 now ts redisFails rateSt cacheSt body
    simp only [summarize_endpoint]
    rcases h : rate_limit avail redisFails 10 60 rateSt now with ⟨d, rateSt2⟩
    cases d <;> simp

/-- C4 amended witness: an allowed attempt at counter 3 applies the batch;
a rejected attempt at counter 10 leaves the state untouched. -/
theorem claim_C4_amended_witness :
    (rate_limit true false 10 60 (some (3, 50)) 10).2
        = incrExpire (some (3, 50)) 10 60 ∧
    (rate_limit true false 10 60 (some (10, 50)) 10).2 = some (10, 50) :=
  ⟨claim_C4_amended.1 _ _ (by decide), claim_C4_amended.2.1 _ _ (by decide)⟩

/-- C8 counterexample: a counter created at time 0 (expiry 60) receives a
second allowed request at time 30, after which its expiry is 90, not
0 + 60: the expiry is re-extended on every allowed increment, not set only
on the first increment after expiry. -/
theorem claim_C8_counterexample :
    (rate_limit true false 10 60 none 0).2 = some (1, 60) ∧
    (rate_limit_run 10 60 [0, 30] none).2 = some (2, 90) ∧
    (90 : Nat) ≠ 0 + 60 := by decide

/-- C8 amended: every allowed request resets the counter's expiry to
`now + 60` (a sliding extension on allowed increments), and a rejected
request leaves the stored counter state — including its expiry —
unchanged. -/
theorem claim_C8_amended :
    (∀ st now, (rate_limit_step 10 60 st now).1 = RateDecision.proceed →
      Option.map Prod.snd (rate_limit_step 10 60 st now).2 = some (now + 60)) ∧
    (∀ st now, (rate_limit_step 10 60 st now).1 = RateDecision.reject429 →
      (rate_limit_step 10 60 st now).2 = st) := by
  constructor
  · intro st now h
    simp only [rate_limit_step] at h ⊢
    cases hg : redisGetCounter st now with
    | none => simp [hg, incrExpire]
    | some c =>
      simp only [hg] at h ⊢
      by_cases hc : 10 ≤ c
      · rw [if_pos hc] at h
        cases h
      · rw [if_neg hc]
        simp [incrExpire, hg]
  · intro st now h
    simp only [rate_limit_step] at h ⊢
    cases hg : redisGetCounter st now with
    | none => simp [hg] at h
    | some c =>
      simp only [hg] at h ⊢
      by_cases hc : 10 ≤ c
      · rw [if_pos hc]
      · rw [if_neg hc] at h
        cases h

/-- C8 amended witness: the second allowed request at time 30 resets the
expiry to 90; a rejected request at a saturated counter keeps state
(10, 50). -/
theorem claim_C8_amended_witness :
    Option.map Prod.snd (rate_limit_step 10 60 (some (1, 60)) 30).2 = some 90 ∧
    (rate_limit_step 10 60 (some (10, 50)) 10).2 = some (10, 50) :=
  ⟨claim_C8_amended.1 _ _ (by decide), claim_C8_amended.2 _ _ (by decide)⟩

/-- C2: a `SummaryResult` stored under the fingerprint of (text, length)
and looked up on the same pair before the 24-hour TTL expires is returned
with `cached` forced true and every other field unchanged, and the hit
leaves the cache state untouched (no update-on-read); at or after
`write + 86400` seconds the lookup misses. -/
theorem claim_C2_cache_round_trip (md5h : String → String) (st : CacheState)
    (now1 now2 : Nat) (text length : String) (data : SummaryResult)
    (mr : Except String (String × ℚ)) (ts : String) :
    (now2 < now1 + 86400 →
      generate_summary
        { md5h := md5h, redisAvailable := true, cacheFails := false,
          modelResult := mr, now := now2, timestamp := ts }
        (cache_summary md5h true false st now1 text length data) text length
      = (Except.ok { data with cached := true },
         cache_summary md5h true false st now1 text length data)) ∧
    (now1 + 86400 ≤ now2 →
      get_cached_summary md5h true false
        (cache_summary md5h true false st now1 text length data) now2 text length
      = none) := by
  have hcs : cache_summary md5h true false st now1 text length data
      = cacheStore st (get_cache_key md5h text length) data 86400 now1 := by
    simp [cache_summary, redisSetex]
  have hget : ∀ n2, get_cached_summary md5h true false
      (cache_summary md5h true false st now1 text length data) n2 text length
      = if n2 < now1 + 86400 then some data else none := by
    intro n2
    rw [hcs]
    simp [get_cached_summary, redisCacheGet, cacheLookup_cacheStore]
  constructor
  · intro h
    simp [generate_summary, hget, h]
  · intro h
    rw [hget]
    rw [if_neg (by omega)]

/-- C2 witness: a concrete store at time 0; a hit at time 100 returns the
stored entry with `cached := true` and leaves the state alone; a lookup at
time 86400 misses. -/
theorem claim_C2_witness :
    (generate_summary
      { md5h := id, redisAvailable := true, cacheFails := false,
        modelResult := Except.error "e", now := 100, timestamp := "ts" }
      (cache_summary id true false [] 0 "t" "short" sampleResult) "t" "short"
      = (Except.ok { sampleResult with cached := true },
         cache_summary id true false [] 0 "t" "short" sampleResult)) ∧
    (get_cached_summary id true false
      (cache_summary id true false [] 0 "t" "short" sampleResult) 86400 "t" "short"
      = none) :=
  ⟨(claim_C2_cache_round_trip id [] 0 100 "t" "short" sampleResult
      (Except.error "e") "ts").1 (by decide),
   (claim_C2_cache_round_trip id [] 0 86400 "t" "short" sampleResult
      (Except.error "e") "ts").2 (by decide)⟩

/-- C3: a failing cache read is a miss and a failing cache store is a
no-op (likewise when Redis is unavailable) — the error never escapes the
cache layer; consequently a valid request whose model call succeeds still
gets a 200 response whose result has `cached = false`, with the cache state
unchanged. -/
theorem claim_C3_cache_error_absorbed (md5h : String → String)
    (st : CacheState) (now : Nat) (text length : String)
    (data : SummaryResult) (avail cf : Bool) (env : Env) (b : RequestBody)
    (s : String) (tm : ℚ) :
    (get_cached_summary md5h avail true st now text length = none) ∧
    (cache_summary md5h avail true st now text length data = st) ∧
    (get_cached_summary md5h false cf st now text length = none) ∧
    (cache_summary md5h false cf st now text length data = st) ∧
    (env.cacheFails = true ∨ env.redisAvailable = false →
      env.modelResult = Except.ok (s, tm) →
      validate_input (pyStrip (b.text.getD "")) (pyLower (b.length.getD "medium")) = [] →
      (summarize_handler env st (some b)).1.status = 200 ∧
      Option.map SummaryResult.cached (summarize_handler env st (some b)).1.data
        = some false ∧
      (summarize_handler env st (some b)).2 = st) := by
  refine ⟨get_cached_summary_eq_none md5h avail true st now text length (Or.inl rfl),
    cache_summary_eq_self md5h avail true st now text length data (Or.inl rfl),
    get_cached_summary_eq_none md5h false cf st now text length (Or.inr rfl),
    cache_summary_eq_self md5h false cf st now text length data (Or.inr rfl), ?_⟩
  intro hfail hm hval
  have hmiss := get_cached_summary_eq_none env.md5h env.redisAvailable
    env.cacheFails st env.now (pyStrip (b.text.getD ""))
    (pyLower (b.length.getD "medium")) hfail
  have hnoop : ∀ d, cache_summary env.md5h env.redisAvailable env.cacheFails st
      env.now (pyStrip (b.text.getD "")) (pyLower (b.length.getD "medium")) d = st :=
    fun d => cache_summary_eq_self env.md5h env.redisAvailable env.cacheFails st
      env.now (pyStrip (b.text.getD "")) (pyLower (b.length.getD "medium")) d hfail
  simp [summarize_handler, hval, generate_summary, hmiss, hm, hnoop]

/-- C3 witness: with the cache read and write raising, a valid 30-word
request with a successful model call yields a 200 whose data has
`cached = false` and leaves the (empty) cache state unchanged. -/
theorem claim_C3_witness :
    (summarize_handler
      { md5h := id, redisAvailable := true, cacheFails := true,
        modelResult := Except.ok ("s", 1), now := 0, timestamp := "ts" }
      [] (some sampleBody)).1.status = 200 ∧
    Option.map SummaryResult.cached
      (summarize_handler
        { md5h := id, redisAvailable := true, cacheFails := true,
          modelResult := Except.ok ("s", 1), now := 0, timestamp := "ts" }
        [] (some sampleBody)).1.data = some false ∧
    (summarize_handler
      { md5h := id, redisAvailable := true, cacheFails := true,
        modelResult := Except.ok ("s", 1), now := 0, timestamp := "ts" }
      [] (some sampleBody)).2 = [] :=
  (claim_C3_cache_error_absorbed id [] 0 "t" "short" sampleResult true true
    { md5h := id, redisAvailable := true, cacheFails := true,
      modelResult := Except.ok ("s", 1), now := 0, timestamp := "ts" }
    sampleBody "s" 1).2.2.2.2 (Or.inl rfl) rfl (by decide)

/-- C5: the fingerprint is a pure function of its arguments (identical
arguments give identical keys), and any two texts that agree on their
first 1000 characters get the same key for the same length option. -/
theorem claim_C5_fingerprint (md5h : String → String) :
    (∀ text length, get_cache_key md5h text length = get_cache_key md5h text length) ∧
    (∀ t1 t2 length, pyTake t1 1000 = pyTake t2 1000 →
      get_cache_key md5h t1 length = get_cache_key md5h t2 length) :=
  ⟨fun _ _ => rfl, fun _ _ length h => by simp [get_cache_key, h]⟩

/-- C5 witness: two 1001-character texts that differ only in their last
character produce the same cache key. -/
theorem claim_C5_witness :
    get_cache_key (fun s => s) (String.mk (List.replicate 1000 'a' ++ ['x'])) "short"
      = get_cache_key (fun s => s) (String.mk (List.replicate 1000 'a' ++ ['y'])) "short" :=
  (claim_C5_fingerprint (fun s => s)).2
    (String.mk (List.replicate 1000 'a' ++ ['x']))
    (String.mk (List.replicate 1000 'a' ++ ['y'])) "short" (by
      show String.mk ((List.replicate 1000 'a' ++ ['x']).take 1000)
          = String.mk ((List.replicate 1000 'a' ++ ['y']).take 1000)
      rw [List.take_append_of_le_length (by rw [List.length_replicate]),
        List.take_append_of_le_length (by rw [List.length_replicate])])

/-- C6: each of the four validation rules appends its message when
violated; the word-count boundary sits between 29 (rejected) and 30
(accepted) and the character boundary between 10,001 (rejected) and 10,000
(accepted); and the request handler reports exactly the first error
message with a 400 response. -/
theorem claim_C6_validation :
    (∀ text length, text.data.isEmpty = true ∨ (pyStrip text).data.isEmpty = true →
      "Text cannot be empty" ∈ validate_input text length) ∧
    (∀ text length, 10000 < text.data.length →
      "Text too long (max 10,000 characters)" ∈ validate_input text length) ∧
    (∀ text length, wordCount text < 30 →
      "Text too short (minimum 30 words)" ∈ validate_input text length) ∧
    (∀ text length, length ∉ (["short", "medium", "long"] : List String) →
      "Invalid length option" ∈ validate_input text length) ∧
    (∀ text length, wordCount text = 29 →
      "Text too short (minimum 30 words)" ∈ validate_input text length) ∧
    (∀ text length, wordCount text = 30 →
      "Text too short (minimum 30 words)" ∉ validate_input text length) ∧
    (∀ text length, text.data.length = 10001 →
      "Text too long (max 10,000 characters)" ∈ validate_input text length) ∧
    (∀ text length, text.data.length = 10000 →
      "Text too long (max 10,000 characters)" ∉ validate_input text length) ∧
    (∀ env st b e rest,
      validate_input (pyStrip (b.text.getD "")) (pyLower (b.length.getD "medium"))
        = e :: rest →
      (summarize_handler env st (some b)).1
        = { status := 400, success := none, error := some e,
            message := none, data := none }) := by
  refine ⟨?_, ?_, ?_, ?_, ?_, ?_, ?_, ?_, ?_⟩
  · intro text length h
    rcases h with h | h <;> simp [validate_input, h]
  · intro text length h
    have h2 : 10000 < text.length := h
    simp [validate_input, h, h2]
  · intro text length h
    simp [validate_input, h]
  · intro text length h
    simp [validate_input, h]
  · intro text length h
    simp [validate_input, h]
  · intro text length h
    simp [validate_input, h]
  · intro text length h
    simp [validate_input, h]
  · intro text length h
    simp [validate_input, h]
  · intro env st b e rest hval
    simp [summarize_handler, hval]

/-- C6 witness: a 29-word text is rejected as too short while a 30-word
text is not; 10,001 characters are rejected as too long while 10,000 are
not; and on an empty text the handler reports only the first of the two
raised errors. -/
theorem claim_C6_witness :
    ("Text too short (minimum 30 words)" ∈ validate_input w29 "medium") ∧
    ("Text too short (minimum 30 words)" ∉ validate_input w30 "medium") ∧
    ("Text too long (max 10,000 characters)" ∈ validate_input a10001 "medium") ∧
    ("Text too long (max 10,000 characters)" ∉ validate_input a10000 "medium") ∧
    ((summarize_handler
      { md5h := id, redisAvailable := true, cacheFails := false,
        modelResult := Except.error "e", now := 0, timestamp := "ts" }
      [] (some { text := some "", length := none })).1
      = { status := 400, success := none, error := some "Text cannot be empty",
          message := none, data := none }) :=
  ⟨claim_C6_validation.2.2.2.2.1 w29 "medium" (by decide),
   claim_C6_validation.2.2.2.2.2.1 w30 "medium" (by decide),
   claim_C6_validation.2.2.2.2.2.2.1 a10001 "medium" (by
     show (List.replicate 10001 'a').length = 10001
     rw [List.length_replicate]),
   claim_C6_validation.2.2.2.2.2.2.2.1 a10000 "medium" (by
     show (List.replicate 10000 'a').length = 10000
     rw [List.length_replicate]),
   claim_C6_validation.2.2.2.2.2.2.2.2
     { md5h := id, redisAvailable := true, cacheFails := false,
       modelResult := Except.error "e", now := 0, timestamp := "ts" }
     [] { text := some "", length := none } "Text cannot be empty"
     ["Text too short (minimum 30 words)"] (by decide)⟩

/-- C7: when the model invocation raises, `generate_summary` re-raises and
the handler — a total function, so the failure never escapes it — turns
the exception into a 500 response with `error = "Internal server error"`
and `message` carrying the exception's own text, leaving the cache state
unchanged. -/
theorem claim_C7_model_error_internal (env : Env) (st : CacheState)
    (b : RequestBody) (msg : String)
    (hm : env.modelResult = Except.error msg)
    (hmiss : get_cached_summary env.md5h env.redisAvailable env.cacheFails st
      env.now (pyStrip (b.text.getD "")) (pyLower (b.length.getD "medium")) = none)
    (hval : validate_input (pyStrip (b.text.getD ""))
      (pyLower (b.length.getD "medium")) = []) :
    (summarize_handler env st (some b)).1
      = { status := 500, success := some false,
          error := some "Internal server error",
          message := some msg, data := none } ∧
    (summarize_handler env st (some b)).2 = st := by
  constructor <;> simp [summarize_handler, hval, generate_summary, hmiss, hm]

/-- C7 witness: a valid 30-word request whose model call raises "boom"
yields exactly the 500 response carrying "boom". -/
theorem claim_C7_witness :
    (summarize_handler
      { md5h := id, redisAvailable := false, cacheFails := false,
        modelResult := Except.error "boom", now := 0, timestamp := "ts" }
      [] (some sampleBody)).1
      = { status := 500, success := some false,
          error := some "Internal server error",
          message := some "boom", data := none } :=
  (claim_C7_model_error_internal
    { md5h := id, redisAvailable := false, cacheFails := false,
      modelResult := Except.error "boom", now := 0, timestamp := "ts" }
    [] sampleBody "boom" rfl rfl (by decide)).1

/-- C9: on a cache miss the produced result's compression ratio is
`len(summary) / len(text) * 100` rounded to one decimal place, computed
over character lengths; in particular a 1000-character text with a
150-character summary gives exactly 15.0. -/
theorem claim_C9_compression :
    (∀ env st text length s tm, env.modelResult = Except.ok (s, tm) →
      get_cached_summary env.md5h env.redisAvailable env.cacheFails st env.now
        text length = none →
      Except.map SummaryResult.compression_ratio
        (generate_summary env st text length).1
        = Except.ok (pyRound ((s.data.length : ℚ) / (text.data.length : ℚ) * 100) 1)) ∧
    (∀ md5h tm ts, Except.map SummaryResult.compression_ratio
      (generate_summary
        { md5h := md5h, redisAvailable := false, cacheFails := false,
          modelResult := Except.ok (String.mk (List.replicate 150 'b'), tm),
          now := 0, timestamp := ts }
        [] (String.mk (List.replicate 1000 'a')) "medium").1
      = Except.ok 15) := by
  constructor
  · intro env st text length s tm hm hmiss
    exact generate_summary_ratio env st text length s tm hmiss hm
  · intro md5h tm ts
    rw [generate_summary_ratio
      { md5h := md5h, redisAvailable := false, cacheFails := false,
        modelResult := Except.ok (String.mk (List.replicate 150 'b'), tm),
        now := 0, timestamp := ts }
      [] (String.mk (List.replicate 1000 'a')) "medium"
      (String.mk (List.replicate 150 'b')) tm rfl rfl]
    rw [show (String.mk (List.replicate 150 'b')).data.length = 150 from by
        rw [List.length_replicate],
      show (String.mk (List.replicate 1000 'a')).data.length = 1000 from by
        rw [List.length_replicate]]
    norm_num [pyRound]

/-- C9 witness: a miss on a 4-character text with a 2-character summary
reports the character-based ratio, and the 1000/150 instance is exactly
15. -/
theorem claim_C9_witness :
    (Except.map SummaryResult.compression_ratio
      (generate_summary
        { md5h := id, redisAvailable := false, cacheFails := false,
          modelResult := Except.ok ("ab", 1), now := 0, timestamp := "ts" }
        [] "abcd" "medium").1
      = Except.ok (pyRound ((("ab".data.length : ℚ)) / (("abcd".data.length : ℚ)) * 100) 1)) ∧
    (Except.map SummaryResult.compression_ratio
      (generate_summary
        { md5h := id, redisAvailable := false, cacheFails := false,
          modelResult := Except.ok (String.mk (List.replicate 150 'b'), 1),
          now := 0, timestamp := "ts" }
        [] (String.mk (List.replicate 1000 'a')) "medium").1
      = Except.ok 15) :=
  ⟨claim_C9_compression.1
      { md5h := id, redisAvailable := false, cacheFails := false,
        modelResult := Except.ok ("ab", 1), now := 0, timestamp := "ts" }
      [] "abcd" "medium" "ab" 1 rfl rfl,
   claim_C9_compression.2 id 1 "ts"⟩

/-- C10: every 200 response of the health check reports
`model_loaded = true` and leaves the model actually loaded, because the
check itself calls `get_model()`; in particular a probe on an unloaded
model with a successful `pipeline(...)` call loads the model and answers
200 with `model_loaded = true`. -/
theorem claim_C10_health (Model : Type) (pipelineResult : Except String Model)
    (avail : Bool) (ts : String) (st : Option Model) :
    ((health_check pipelineResult avail ts st).1.http_status = 200 →
      (health_check pipelineResult avail ts st).1.model_loaded = some true ∧
      ((health_check pipelineResult avail ts st).2).isSome = true) ∧
    (∀ m : Model, pipelineResult = Except.ok m →
      (health_check pipelineResult avail ts none).2 = some m ∧
      (health_check pipelineResult avail ts none).1.http_status = 200 ∧
      (health_check pipelineResult avail ts none).1.model_loaded = some true) := by
  constructor
  · intro h
    cases st with
    | some m => simp [health_check, ModelManager_get_model]
    | none =>
      cases hp : pipelineResult with
      | error e => simp [health_check, ModelManager_get_model, hp] at h
      | ok m => simp [health_check, ModelManager_get_model, hp]
  · intro m hp
    subst hp
    simp [health_check, ModelManager_get_model]

/-- C10 witness: a health probe with no model loaded and a successful
model construction returns 200 with `model_loaded = true` and stores the
constructed instance. -/
theorem claim_C10_witness :
    ((health_check (Except.ok ()) true "ts" (none : Option Unit)).1.model_loaded
        = some true ∧
      ((health_check (Except.ok ()) true "ts" (none : Option Unit)).2).isSome = true) ∧
    (health_check (Except.ok ()) true "ts" (none : Option Unit)).2 = some () :=
  ⟨(claim_C10_health Unit (Except.ok ()) true "ts" none).1 (by decide),
   ((claim_C10_health Unit (Except.ok ()) true "ts" none).2 () rfl).1⟩

end App
